import Mathlib

/-!
# create-agent: the schema-validated ingestion pipeline of `main.go`

A shallow embedding of `src/tasks/agent/create-agent/main.go`.

The two functions with logic, `makeAgentViaJSON` and `main`, are translated
statement by statement.  Everything they call lives in imported packages
(`cuelang.org/go/cue`, `cuelang.org/go/encoding/json`, `github.com/gilcrest/graupel`,
`envconfig`, `os`), whose code is not part of the file; each such call is a field
of `Lib`, `Sys` or `Env`, applied exactly where the source applies it.

Go semantics made explicit:
* a call with result `(x, err)` is a pair whose second component is an
  `Option`; `none` is the `nil` error;
* a pointer is an `Option`; `none` is `nil`;
* `log.Fatal` prints its argument and ends the process with status 1;
* indexing a slice out of range, and selecting a field through a `nil`
  pointer, is a run-time panic;
* every call of a collaborator and every print is recorded, in program order,
  in an event trace.
-/

namespace CreateAgent

/-- Go's `[]byte`. -/
abbrev Bytes := List (Fin 256)

/-- The types declared by the imported packages.  Their declarations are not in
`main.go`; the program only moves their values around. -/
structure Types where
  /-- non-nil values of Go's `error` -/
  Err : Type
  /-- Go type `ast.Expr` -/
  Expr : Type
  /-- Go type `cue.Value` -/
  Value : Type
  /-- Go type `graupel.AgentProfile` -/
  AgentProfile : Type
  /-- Go type `graupel.ModelConfig` -/
  ModelConfig : Type
  /-- pointee of the field `Instructions` -/
  Instructions : Type
  /-- pointee of the field `Orchestration` -/
  Orchestration : Type
  /-- non-nil values of the field `Tools` -/
  Tools : Type
  /-- type of `CreateRequest.ToolResources`, the first argument of `ParseToolResources` -/
  RawToolResources : Type
  /-- Go type `map[string]graupel.ToolResource` -/
  ToolResourceMap : Type
  /-- pointee of the field `AgentSpecStr` -/
  AgentSpecStr : Type
  /-- Go type `time.Time` -/
  Time : Type
  /-- the zero value `time.Time{}` -/
  zeroTime : Time
  /-- Go type `graupel.Client` -/
  Client : Type
  /-- Go type `graupel.CreateResponse` -/
  CreateResponse : Type
  /-- Go type `graupel.Response` -/
  Response : Type
  /-- type of `graupel.CreateOptions.CreateMode` -/
  CreateMode : Type
  /-- the constant `graupel.CreateModeOrReplace` -/
  CreateModeOrReplace : CreateMode

/-- Go type `graupel.CortexAgent`, with the thirteen fields `makeAgent` lists. -/
structure CortexAgent (T : Types) where
  Owner : Option String
  DatabaseName : Option String
  SchemaName : Option String
  Name : Option String
  Comment : Option String
  Profile : Option T.AgentProfile
  Models : Option T.ModelConfig
  Instructions : Option T.Instructions
  Orchestration : Option T.Orchestration
  Tools : Option T.Tools
  ToolResources : T.ToolResourceMap
  AgentSpecStr : Option T.AgentSpecStr
  CreatedOn : T.Time

/-- Go type `graupel.CreateRequest`: the fields `makeAgentViaJSON` reads from `cr`. -/
structure CreateRequest (T : Types) where
  DatabaseName : Option String
  SchemaName : Option String
  Name : Option String
  Comment : Option String
  Profile : Option T.AgentProfile
  Models : Option T.ModelConfig
  Instructions : Option T.Instructions
  Orchestration : Option T.Orchestration
  Tools : Option T.Tools
  ToolResources : T.RawToolResources

/-- Go type `graupel.CreateOptions`, of which `main` sets `CreateMode`. -/
structure CreateOptions (T : Types) where
  CreateMode : T.CreateMode

/-- Go type `Config`, filled by `envconfig.Process`. -/
structure Config where
  PAT : String
  SnowflakeBaseURL : String

/-- The constant `applicationName`. -/
def applicationName : String := "graupel"

/-- The library calls of `makeAgentViaJSON`. -/
structure Lib (T : Types) where
  /-- Call `ctx.CompileString(src)` -/
  CompileString : String → T.Value
  /-- Call `v.LookupPath(cue.ParsePath(path))` -/
  LookupPath : T.Value → String → T.Value
  /-- Call `json.Extract(filename, data)` -/
  Extract : String → Bytes → T.Expr × Option T.Err
  /-- Call `ctx.BuildExpr(expr)` -/
  BuildExpr : T.Expr → T.Value
  /-- Call `schema.Unify(v)` -/
  Unify : T.Value → T.Value → T.Value
  /-- Call `uv.Validate()` -/
  Validate : T.Value → Option T.Err
  /-- Call `uv.Decode(&cr)`: the pointer `cr` after the call, and the error -/
  Decode : T.Value → Option (CreateRequest T) × Option T.Err
  /-- Call `graupel.ParseToolResources(toolResources, tools)` -/
  ParseToolResources : T.RawToolResources → Option T.Tools → T.ToolResourceMap × Option T.Err

/-- What `makeAgentViaJSON` reads from the process: the embedded schema text,
the argument vector and the file system. -/
structure Sys (T : Types) where
  /-- the variable `cueSource` (embedded `schema.cue`) -/
  cueSource : String
  /-- The variable `os.Args` -/
  Args : List String
  /-- Call `os.ReadFile(name)` -/
  ReadFile : String → Bytes × Option T.Err

/-- The remaining calls of `main`. -/
structure Env (T : Types) where
  /-- Call `envconfig.Process(applicationName, &c)`: `c` after the call, and the error -/
  Process : String → Config × Option T.Err
  /-- Call `err.Error()` -/
  ErrorString : T.Err → String
  /-- Call `graupel.NewClient(nil).WithProgrammaticAccessToken(pat).WithSnowflakeBaseURL(url)` -/
  NewClient : String → String → Option T.Client × Option T.Err
  /-- Call `errors.Errors(err)` -/
  Errors : T.Err → List T.Err
  /-- Call `client.Agents.Create(ctx, agent, opts)` -/
  Create : T.Client → Option (CortexAgent T) → CreateOptions T →
    Option T.CreateResponse × Option T.Response × Option T.Err

/-- One observable step of the program. -/
inductive Event (T : Types) where
  | compileString (src : String)
  | lookupPath (path : String)
  | readFile (name : String)
  | extract (name : String) (data : Bytes)
  | buildExpr (e : T.Expr)
  | unify (schema v : T.Value)
  | validate (uv : T.Value)
  | decode (uv : T.Value)
  | parseToolResources (res : T.RawToolResources) (tools : Option T.Tools)
  | printAgent (a : CortexAgent T)
  | logFatal (e : T.Err)
  | logFatalString (s : String)
  | envProcess (app : String)
  | newClient (pat url : String)
  | println (s : String)
  | printErr (e : T.Err)
  | printDetails (e : T.Err)
  | printCount (n : Nat)
  | create (c : T.Client) (agent : Option (CortexAgent T)) (opts : CreateOptions T)
  | printHTTPStatus (r : T.Response)
  | printBodyStatus (r : T.CreateResponse)

/-- How a Go function call ends. -/
inductive Outcome (α : Type) where
  /-- the function returns to its caller -/
  | returned (a : α)
  /-- the process ends in `os.Exit(code)` -/
  | exited (code : Nat)
  /-- a run-time panic -/
  | panicked

/-- The stages of the pipeline. -/
inductive Stage where
  | extract | build | unify | validate | decode | resolve
  deriving DecidableEq, Repr

/-- The stage an event belongs to, if any. -/
def Event.stage {T : Types} : Event T → Option Stage
  | .extract _ _ => some .extract
  | .buildExpr _ => some .build
  | .unify _ _ => some .unify
  | .validate _ => some .validate
  | .decode _ => some .decode
  | .parseToolResources _ _ => some .resolve
  | _ => none

/-- Is the event a call of `log.Fatal`? -/
def Event.isFatal {T : Types} : Event T → Bool
  | .logFatal _ => true
  | .logFatalString _ => true
  | _ => false

/-- Is the event a call of `client.Agents.Create`? -/
def Event.isCreate {T : Types} : Event T → Bool
  | .create _ _ _ => true
  | _ => false

/-- Function `makeAgentViaJSON` (main.go, lines 105-161): the trace of its steps and how
it ends.  A return carries the pair `(*graupel.CortexAgent, error)`. -/
def makeAgentViaJSON {T : Types} (L : Lib T) (s : Sys T) :
    List (Event T) × Outcome (Option (CortexAgent T) × Option T.Err) :=
  -- schema := ctx.CompileString(cueSource).LookupPath(cue.ParsePath("#CortexAgent"))
  let schema := L.LookupPath (L.CompileString s.cueSource) "#CortexAgent"
  let t0 : List (Event T) := [.compileString s.cueSource, .lookupPath "#CortexAgent"]
  -- dataFilename := os.Args[1]
  match s.Args[1]? with
  | none => (t0, .panicked)
  | some dataFilename =>
    -- dataFile, err := os.ReadFile(dataFilename)
    let t1 := t0 ++ [.readFile dataFilename]
    match s.ReadFile dataFilename with
    | (_, some err) => (t1 ++ [.logFatal err], .exited 1)
    | (dataFile, none) =>
      -- dataExpr, err = json.Extract(dataFilename, dataFile)
      let t2 := t1 ++ [.extract dataFilename dataFile]
      match L.Extract dataFilename dataFile with
      | (_, some err) => (t2, .returned (none, some err))
      | (dataExpr, none) =>
        -- v := ctx.BuildExpr(dataExpr)
        let v := L.BuildExpr dataExpr
        -- uv := schema.Unify(v)
        let uv := L.Unify schema v
        let t3 := t2 ++ [.buildExpr dataExpr, .unify schema v, .validate uv]
        -- if err := uv.Validate(); err != nil
        match L.Validate uv with
        | some err => (t3, .returned (none, some err))
        | none =>
          -- err = uv.Decode(&cr)
          let t4 := t3 ++ [.decode uv]
          match L.Decode uv with
          | (_, some err) => (t4 ++ [.logFatal err], .exited 1)
          | (none, none) => (t4, .panicked)
          | (some cr, none) =>
            -- der, err = graupel.ParseToolResources(cr.ToolResources, cr.Tools)
            let t5 := t4 ++ [.parseToolResources cr.ToolResources cr.Tools]
            match L.ParseToolResources cr.ToolResources cr.Tools with
            | (_, some err) => (t5, .returned (none, some err))
            | (der, none) =>
              let agent : CortexAgent T :=
                { Owner := none
                  DatabaseName := cr.DatabaseName
                  SchemaName := cr.SchemaName
                  Name := cr.Name
                  Comment := cr.Comment
                  Profile := cr.Profile
                  Models := cr.Models
                  Instructions := cr.Instructions
                  Orchestration := cr.Orchestration
                  Tools := cr.Tools
                  ToolResources := der
                  AgentSpecStr := none
                  CreatedOn := T.zeroTime }
              (t5 ++ [.printAgent agent], .returned (some agent, none))

/-- Function `main` (main.go, lines 34-85): the trace of its steps and how it ends. -/
def main {T : Types} (E : Env T) (L : Lib T) (s : Sys T) : List (Event T) × Outcome Unit :=
  -- err := envconfig.Process(applicationName, &c)
  let t0 : List (Event T) := [.envProcess applicationName]
  match E.Process applicationName with
  | (_, some err) => (t0 ++ [.logFatalString (E.ErrorString err)], .exited 1)
  | (c, none) =>
    -- client, err = graupel.NewClient(nil).WithProgrammaticAccessToken(..).WithSnowflakeBaseURL(..)
    let t1 := t0 ++ [.newClient c.PAT c.SnowflakeBaseURL]
    match E.NewClient c.PAT c.SnowflakeBaseURL with
    | (_, some err) => (t1 ++ [.logFatal err], .exited 1)
    | (client, none) =>
      -- agent, err = makeAgentViaJSON()
      let r := makeAgentViaJSON L s
      let t2 := t1 ++ r.1
      match r.2 with
      | .panicked => (t2, .panicked)
      | .exited code => (t2, .exited code)
      | .returned (_, some err) =>
        let errs := E.Errors err
        (t2 ++ [.println "# Error summary [err]:", .printErr err,
                .println "# Error details [errors.Details(err)]:", .printDetails err,
                .println "# Error count [len(errs)]:", .printCount errs.length,
                .logFatal err], .exited 1)
      | .returned (agent, none) =>
        -- cr, resp, err = client.Agents.Create(ctx, agent, &graupel.CreateOptions{...})
        match client with
        | none => (t2, .panicked)
        | some cl =>
          let opts : CreateOptions T := { CreateMode := T.CreateModeOrReplace }
          let t3 := t2 ++ [.create cl agent opts]
          match E.Create cl agent opts with
          | (_, _, some err) => (t3 ++ [.logFatal err], .exited 1)
          -- line 83 reads resp.Response.Status and prints it
          | (_, none, none) => (t3, .panicked)
          -- line 84 reads cr.Status and prints it
          | (none, some resp, none) => (t3 ++ [.printHTTPStatus resp], .panicked)
          | (some cr, some resp, none) =>
            (t3 ++ [.printHTTPStatus resp, .printBodyStatus cr], .returned ())

/-- The value `schema` of `makeAgentViaJSON`: the embedded source compiled and
looked up at `#CortexAgent`. -/
abbrev schemaValue {T : Types} (L : Lib T) (s : Sys T) : T.Value :=
  L.LookupPath (L.CompileString s.cueSource) "#CortexAgent"

/-- The value `uv` of `makeAgentViaJSON` for the extracted expression `expr`. -/
abbrev unified {T : Types} (L : Lib T) (s : Sys T) (expr : T.Expr) : T.Value :=
  L.Unify (schemaValue L s) (L.BuildExpr expr)

/-- The stages run by `makeAgentViaJSON`, in the order they ran. -/
def stagesRun {T : Types} (L : Lib T) (s : Sys T) : List Stage :=
  (makeAgentViaJSON L s).1.filterMap Event.stage

/-- The stage events of a run, in program order: the calls of `json.Extract`,
`ctx.BuildExpr`, `schema.Unify`, `uv.Validate`, `uv.Decode` and
`graupel.ParseToolResources`, each with the arguments it was given. -/
def stageEvents {T : Types} (L : Lib T) (s : Sys T) : List (Event T) :=
  (makeAgentViaJSON L s).1.filter (fun ev => ev.stage.isSome)

/-- Two runs get the same answers from the libraries: every library call that
`makeAgentViaJSON` makes in the first run, on process state `s`, returns the
same result when the second run makes it with the same arguments.  Calls the
pipeline does not make are not constrained. -/
def SameAnswers {T : Types} (L₁ L₂ : Lib T) (s : Sys T) : Prop :=
  L₁.CompileString s.cueSource = L₂.CompileString s.cueSource ∧
  L₁.LookupPath (L₁.CompileString s.cueSource) "#CortexAgent"
    = L₂.LookupPath (L₁.CompileString s.cueSource) "#CortexAgent" ∧
  ∀ name data, s.Args[1]? = some name → s.ReadFile name = (data, none) →
    L₁.Extract name data = L₂.Extract name data ∧
    ∀ expr, L₁.Extract name data = (expr, none) →
      L₁.BuildExpr expr = L₂.BuildExpr expr ∧
      L₁.Unify (schemaValue L₁ s) (L₁.BuildExpr expr)
        = L₂.Unify (schemaValue L₁ s) (L₁.BuildExpr expr) ∧
      L₁.Validate (unified L₁ s expr) = L₂.Validate (unified L₁ s expr) ∧
      (L₁.Validate (unified L₁ s expr) = none →
        L₁.Decode (unified L₁ s expr) = L₂.Decode (unified L₁ s expr) ∧
        ∀ cr, L₁.Decode (unified L₁ s expr) = (some cr, none) →
          L₁.ParseToolResources cr.ToolResources cr.Tools
            = L₂.ParseToolResources cr.ToolResources cr.Tools)

/-- C4 as the claim states it: whichever of the four stages fails,
`makeAgentViaJSON` returns `(nil, err)` with that stage's error. -/
def EveryStageFailureReturned {T : Types} (L : Lib T) (s : Sys T) : Prop :=
  ∀ name data, s.Args[1]? = some name → s.ReadFile name = (data, none) →
    (∀ x e, L.Extract name data = (x, some e) →
      (makeAgentViaJSON L s).2 = .returned (none, some e)) ∧
    (∀ expr, L.Extract name data = (expr, none) →
      (∀ e, L.Validate (unified L s expr) = some e →
        (makeAgentViaJSON L s).2 = .returned (none, some e)) ∧
      (L.Validate (unified L s expr) = none →
        (∀ x e, L.Decode (unified L s expr) = (x, some e) →
          (makeAgentViaJSON L s).2 = .returned (none, some e)) ∧
        (∀ cr x e, L.Decode (unified L s expr) = (some cr, none) →
          L.ParseToolResources cr.ToolResources cr.Tools = (x, some e) →
          (makeAgentViaJSON L s).2 = .returned (none, some e))))

/-- C5 as the claim states it, for a notion `failed` of failed schema value:
with a failed schema `makeAgentViaJSON` does not return to its caller and
unifies no document against the schema. -/
def SchemaFailureIsFatal {T : Types} (failed : T.Value → Prop) (L : Lib T) (s : Sys T) : Prop :=
  failed (schemaValue L s) →
    (∀ r, (makeAgentViaJSON L s).2 ≠ .returned r) ∧
    (∀ v, Event.unify (schemaValue L s) v ∉ (makeAgentViaJSON L s).1)

/-! ## A small concrete instance

Used to evaluate the definitions on explicit inputs.  Values are natural
numbers, a failed value is `none`, errors are strings. -/

/-- Instance of the library types used for evaluation. -/
@[reducible] def toyTypes : Types where
  Err := String
  Expr := Nat
  Value := Option Nat
  AgentProfile := String
  ModelConfig := String
  Instructions := String
  Orchestration := String
  Tools := List String
  RawToolResources := List String
  ToolResourceMap := List (String × String)
  AgentSpecStr := String
  Time := Nat
  zeroTime := 0
  Client := Unit
  CreateResponse := String
  Response := String
  CreateMode := Nat
  CreateModeOrReplace := 1

/-- The request every well-formed toy document decodes to; the document code
selects the tool resources. -/
def toyRequest (n : Nat) : CreateRequest toyTypes where
  DatabaseName := some "ins_co"
  SchemaName := some "loss_claims"
  Name := some "test"
  Comment := none
  Profile := some "display"
  Models := none
  Instructions := none
  Orchestration := none
  Tools := some ["search"]
  ToolResources := if n = 3 then ["other"] else ["search"]

/-- A toy library: an empty schema text does not compile, a failed schema
fails every unification, an empty file does not parse, document 0 violates the
schema, document 1 cannot be decoded, document 2 decodes to a nil request, and
a resource named other than a declared tool is rejected. -/
def toyLib : Lib toyTypes where
  CompileString := fun src => if src = "" then none else some 0
  LookupPath := fun v _ => v
  Extract := fun _ data =>
    match data with
    | [] => (0, some "unexpected end of input")
    | b :: _ => (b.val, none)
  BuildExpr := fun e => some e
  Unify := fun a b =>
    match a, b with
    | some _, some y => some y
    | _, _ => none
  Validate := fun uv =>
    match uv with
    | none => some "schema error"
    | some 0 => some "field missing"
    | some _ => none
  Decode := fun uv =>
    match uv with
    | none => (none, some "cannot decode an error value")
    | some 1 => (none, some "cannot decode")
    | some 2 => (none, none)
    | some n => (some (toyRequest n), none)
  ParseToolResources := fun res tools =>
    match res, tools with
    | [r], some [t] => if r = t then ([(t, r)], none) else ([], some "unmatched resource")
    | _, _ => ([], some "unsupported")

/-- A toy process: schema text `src` and the argument vector `args`; the file
`empty.json` is empty, `missing.json` does not exist, and any other file holds
the one byte `b`. -/
def toySys (src : String) (args : List String) (b : Fin 256) : Sys toyTypes where
  cueSource := src
  Args := args
  ReadFile := fun name =>
    if name = "empty.json" then ([], none)
    else if name = "missing.json" then ([], some "no such file")
    else ([b], none)

/-- The toy library with a validator that also rejects document `n`. -/
def toyLibRejecting (n : Nat) : Lib toyTypes :=
  { toyLib with
    Validate := fun uv => if uv = some n then some "rejected" else toyLib.Validate uv }

/-- A toy environment for `main`. -/
def toyEnv : Env toyTypes where
  Process := fun _ => ({ PAT := "pat", SnowflakeBaseURL := "url" }, none)
  ErrorString := fun e => e
  NewClient := fun _ _ => (some (), none)
  Errors := fun e => [e]
  Create := fun _ _ _ => (some "created", some "200 OK", none)

/-! ## Theorems -/

section Pipeline

variable {T : Types}

/-- On every return of `makeAgentViaJSON` the agent is non-nil exactly when the
error is nil. -/
theorem returned_agent_iff_no_error (L : Lib T) (s : Sys T) (a : Option (CortexAgent T))
    (e : Option T.Err) (h : (makeAgentViaJSON L s).2 = .returned (a, e)) :
    a.isSome ↔ e.isNone := by
  revert h
  simp only [makeAgentViaJSON]
  repeat' split
  all_goals simp
  all_goals (rintro rfl rfl; simp)

/-- C1. `makeAgentViaJSON` never returns a partial agent: on every return the
agent is non-nil exactly when the error is nil, and a failure of
`json.Extract`, of `uv.Validate` or of `graupel.ParseToolResources` makes it
return a nil agent together with that (non-nil) error. -/
theorem makeAgentViaJSON_agent_or_error (L : Lib T) (s : Sys T) :
    (∀ a e, (makeAgentViaJSON L s).2 = .returned (a, e) → (a.isSome ↔ e.isNone)) ∧
    (∀ name data x e, s.Args[1]? = some name → s.ReadFile name = (data, none) →
      L.Extract name data = (x, some e) →
      (makeAgentViaJSON L s).2 = .returned (none, some e)) ∧
    (∀ name data expr e, s.Args[1]? = some name → s.ReadFile name = (data, none) →
      L.Extract name data = (expr, none) →
      L.Validate (unified L s expr) = some e →
      (makeAgentViaJSON L s).2 = .returned (none, some e)) ∧
    (∀ name data expr cr x e, s.Args[1]? = some name → s.ReadFile name = (data, none) →
      L.Extract name data = (expr, none) →
      L.Validate (unified L s expr) = none →
      L.Decode (unified L s expr) = (some cr, none) →
      L.ParseToolResources cr.ToolResources cr.Tools = (x, some e) →
      (makeAgentViaJSON L s).2 = .returned (none, some e)) := by
  refine ⟨?_, ?_, ?_, ?_⟩
  · exact returned_agent_iff_no_error L s
  · intro name data x e h1 h2 h3
    simp [makeAgentViaJSON, h1, h2, h3]
  · intro name data expr e h1 h2 h3 h4
    simp [makeAgentViaJSON, h1, h2, h3, h4]
  · intro name data expr cr x e h1 h2 h3 h4 h5 h6
    simp [makeAgentViaJSON, h1, h2, h3, h4, h5, h6]

/-- Witness for C1: an empty file fails extraction, document 0 fails
validation and document 3 fails resolution; each returns `(nil, err)`. -/
theorem makeAgentViaJSON_agent_or_error_witness :
    (makeAgentViaJSON toyLib (toySys "schema" ["create-agent", "empty.json"] 5)).2
        = .returned (none, some "unexpected end of input") ∧
    (makeAgentViaJSON toyLib (toySys "schema" ["create-agent", "doc.json"] 0)).2
        = .returned (none, some "field missing") ∧
    (makeAgentViaJSON toyLib (toySys "schema" ["create-agent", "doc.json"] 3)).2
        = .returned (none, some "unmatched resource") :=
  ⟨(makeAgentViaJSON_agent_or_error toyLib
      (toySys "schema" ["create-agent", "empty.json"] 5)).2.1
      "empty.json" [] 0 "unexpected end of input" rfl rfl rfl,
   (makeAgentViaJSON_agent_or_error toyLib
      (toySys "schema" ["create-agent", "doc.json"] 0)).2.2.1
      "doc.json" [0] 0 "field missing" rfl rfl rfl rfl,
   (makeAgentViaJSON_agent_or_error toyLib
      (toySys "schema" ["create-agent", "doc.json"] 3)).2.2.2
      "doc.json" [3] 3 (toyRequest 3) [] "unmatched resource" rfl rfl rfl rfl rfl rfl⟩

/-- C2. When `makeAgentViaJSON` returns with a nil error, the agent is non-nil
and is built from the decoded request `cr` and the resolver result
`der = ParseToolResources(cr.ToolResources, cr.Tools)`: the nine request fields
are copied, `ToolResources` is `der`, and `Owner`, `AgentSpecStr`, `CreatedOn`
are zero values. -/
theorem makeAgentViaJSON_agent_fields (L : Lib T) (s : Sys T) (a : Option (CortexAgent T))
    (h : (makeAgentViaJSON L s).2 = .returned (a, none)) :
    ∃ name data expr cr der agent,
      s.Args[1]? = some name ∧ s.ReadFile name = (data, none) ∧
      L.Extract name data = (expr, none) ∧
      L.Validate (unified L s expr) = none ∧
      L.Decode (unified L s expr) = (some cr, none) ∧
      L.ParseToolResources cr.ToolResources cr.Tools = (der, none) ∧
      a = some agent ∧
      agent.DatabaseName = cr.DatabaseName ∧ agent.SchemaName = cr.SchemaName ∧
      agent.Name = cr.Name ∧ agent.Comment = cr.Comment ∧ agent.Profile = cr.Profile ∧
      agent.Models = cr.Models ∧ agent.Instructions = cr.Instructions ∧
      agent.Orchestration = cr.Orchestration ∧ agent.Tools = cr.Tools ∧
      agent.ToolResources = der ∧
      agent.Owner = none ∧ agent.AgentSpecStr = none ∧ agent.CreatedOn = T.zeroTime := by
  revert h
  simp only [makeAgentViaJSON]
  repeat' split
  all_goals simp
  rename_i name h1 _ data h2 _ expr h3 _ h4 _ cr h5 _ der h6
  rintro rfl
  exact ⟨name, h1, data, h2, expr, h3, h4, cr, h5, der, h6, _, rfl, by simp⟩

/-- Witness for C2: document 5 yields an agent with the request's fields. -/
theorem makeAgentViaJSON_agent_fields_witness :
    ∃ agent : CortexAgent toyTypes,
      (makeAgentViaJSON toyLib (toySys "schema" ["create-agent", "doc.json"] 5)).2
        = .returned (some agent, none) ∧
      agent.Name = some "test" ∧ agent.ToolResources = [("search", "search")] ∧
      agent.Owner = none :=
  match makeAgentViaJSON_agent_fields toyLib
      (toySys "schema" ["create-agent", "doc.json"] 5) _ rfl with
  | ⟨_, _, _, _, _, _, _, _, _, _, _, _, rfl, _⟩ => ⟨_, rfl, rfl, rfl, rfl⟩

/-- C4, counterexample: document 1 passes validation and fails `uv.Decode`;
the process ends in `log.Fatal` and nothing is returned to the caller. -/
theorem decode_failure_is_not_returned :
    ¬ EveryStageFailureReturned toyLib (toySys "schema" ["create-agent", "doc.json"] 1) := by
  intro h
  have h1 := ((h "doc.json" [1] rfl rfl).2 1 rfl).2 rfl
  have h2 := h1.1 none "cannot decode" rfl
  have h3 : (makeAgentViaJSON toyLib (toySys "schema" ["create-agent", "doc.json"] 1)).2
      = .exited 1 := rfl
  rw [h3] at h2
  cases h2

/-- C4, amended. A failure of `json.Extract`, `uv.Validate` or
`graupel.ParseToolResources` makes `makeAgentViaJSON` return `(nil, err)` with
that stage's error, right after the failing call; a failure of `uv.Decode`
ends the process in `log.Fatal(err)` with that error and returns nothing. -/
theorem stage_failure_propagation (L : Lib T) (s : Sys T) (name : String) (data : Bytes)
    (hname : s.Args[1]? = some name) (hread : s.ReadFile name = (data, none)) :
    (∀ x e, L.Extract name data = (x, some e) →
      makeAgentViaJSON L s =
        ([.compileString s.cueSource, .lookupPath "#CortexAgent", .readFile name,
          .extract name data], .returned (none, some e))) ∧
    (∀ expr, L.Extract name data = (expr, none) →
      (∀ e, L.Validate (unified L s expr) = some e →
        makeAgentViaJSON L s =
          ([.compileString s.cueSource, .lookupPath "#CortexAgent", .readFile name,
            .extract name data, .buildExpr expr,
            .unify (schemaValue L s) (L.BuildExpr expr), .validate (unified L s expr)],
           .returned (none, some e))) ∧
      (L.Validate (unified L s expr) = none →
        (∀ x e, L.Decode (unified L s expr) = (x, some e) →
          makeAgentViaJSON L s =
            ([.compileString s.cueSource, .lookupPath "#CortexAgent", .readFile name,
              .extract name data, .buildExpr expr,
              .unify (schemaValue L s) (L.BuildExpr expr), .validate (unified L s expr),
              .decode (unified L s expr), .logFatal e], .exited 1)) ∧
        (∀ cr x e, L.Decode (unified L s expr) = (some cr, none) →
          L.ParseToolResources cr.ToolResources cr.Tools = (x, some e) →
          makeAgentViaJSON L s =
            ([.compileString s.cueSource, .lookupPath "#CortexAgent", .readFile name,
              .extract name data, .buildExpr expr,
              .unify (schemaValue L s) (L.BuildExpr expr), .validate (unified L s expr),
              .decode (unified L s expr), .parseToolResources cr.ToolResources cr.Tools],
             .returned (none, some e))))) := by
  refine ⟨?_, ?_⟩
  · intro x e h3
    simp [makeAgentViaJSON, hname, hread, h3]
  · intro expr h3
    refine ⟨?_, ?_⟩
    · intro e h4
      simp [makeAgentViaJSON, hname, hread, h3, h4]
    · intro h4
      refine ⟨?_, ?_⟩
      · intro x e h5
        simp [makeAgentViaJSON, hname, hread, h3, h4, h5]
      · intro cr x e h5 h6
        simp [makeAgentViaJSON, hname, hread, h3, h4, h5, h6]

/-- Witness for C4 (amended): on document 1 the decode failure ends the process. -/
theorem stage_failure_propagation_witness :
    makeAgentViaJSON toyLib (toySys "schema" ["create-agent", "doc.json"] 1) =
      ([.compileString "schema", .lookupPath "#CortexAgent", .readFile "doc.json",
        .extract "doc.json" [1], .buildExpr 1, .unify (some 0) (some 1), .validate (some 1),
        .decode (some 1), .logFatal "cannot decode"], .exited 1) :=
  ((((stage_failure_propagation toyLib (toySys "schema" ["create-agent", "doc.json"] 1)
      "doc.json" [1] rfl rfl).2 1 rfl).2 rfl).1 none "cannot decode" rfl)

/-- C5, counterexample: the empty schema text does not compile, yet the
process does not end there: document 5 is unified against the failed schema
value and the error of the result is returned as `(nil, err)`, the path of a
validation error. -/
theorem failed_schema_is_unified_and_returned :
    ¬ SchemaFailureIsFatal (fun v => v = none) toyLib
        (toySys "" ["create-agent", "doc.json"] 5) := by
  intro h
  have htrace : (makeAgentViaJSON toyLib (toySys "" ["create-agent", "doc.json"] 5)) =
      ([.compileString "", .lookupPath "#CortexAgent", .readFile "doc.json",
        .extract "doc.json" [5], .buildExpr 5, .unify none (some 5), .validate none],
       .returned (none, some "schema error")) := rfl
  have hunify := (h rfl).2 (some 5)
  rw [htrace] at hunify
  exact hunify (List.mem_of_mem_drop (n := 5) (List.mem_cons_self _ _))

/-- C5, amended. `makeAgentViaJSON` makes no check of the schema it builds:
whatever value compiling the embedded source and looking up `#CortexAgent`
gives, no `log.Fatal` and no return happens before the file is read, every
document that extracts is unified against that value, and an error then
reported by `uv.Validate` is returned as `(nil, err)`. -/
theorem schema_value_is_not_checked (L : Lib T) (s : Sys T) :
    (∀ name, s.Args[1]? = some name →
      (makeAgentViaJSON L s).1.take 3 =
        [.compileString s.cueSource, .lookupPath "#CortexAgent", .readFile name]) ∧
    (∀ code, (makeAgentViaJSON L s).2 = .exited code →
      ∃ name data e, s.Args[1]? = some name ∧
        (s.ReadFile name = (data, some e) ∨
          ∃ expr x, s.ReadFile name = (data, none) ∧ L.Extract name data = (expr, none) ∧
            L.Decode (unified L s expr) = (x, some e))) ∧
    (∀ name data expr, s.Args[1]? = some name → s.ReadFile name = (data, none) →
      L.Extract name data = (expr, none) →
      Event.unify (schemaValue L s) (L.BuildExpr expr) ∈ (makeAgentViaJSON L s).1 ∧
      ∀ e, L.Validate (unified L s expr) = some e →
        (makeAgentViaJSON L s).2 = .returned (none, some e)) := by
  refine ⟨?_, ?_, ?_⟩
  · intro name h1
    simp only [makeAgentViaJSON, h1]
    repeat' split
    all_goals simp
  · intro code
    simp only [makeAgentViaJSON]
    repeat' split
    all_goals simp
    · rename_i name h1 _ data e h2
      exact fun _ => ⟨name, h1, data, e, Or.inl h2⟩
    · rename_i name h1 _ data h2 _ expr h3 _ h4 _ x e h5
      exact fun _ => ⟨name, h1, data, e, Or.inr ⟨h2, expr, h3, x, h5⟩⟩
  · intro name data expr h1 h2 h3
    refine ⟨?_, ?_⟩
    · simp only [makeAgentViaJSON, h1, h2, h3]
      repeat' split
      all_goals simp
    · intro e h4
      simp [makeAgentViaJSON, h1, h2, h3, h4]

/-- Witness for C5 (amended): with the empty schema text the failed schema
value `none` is unified with document 5 and its error is returned. -/
theorem schema_value_is_not_checked_witness :
    Event.unify (T := toyTypes) none (some 5) ∈
        (makeAgentViaJSON toyLib (toySys "" ["create-agent", "doc.json"] 5)).1 ∧
    (makeAgentViaJSON toyLib (toySys "" ["create-agent", "doc.json"] 5)).2
        = .returned (none, some "schema error") :=
  ⟨((schema_value_is_not_checked toyLib (toySys "" ["create-agent", "doc.json"] 5)).2.2
      "doc.json" [5] 5 rfl rfl rfl).1,
   ((schema_value_is_not_checked toyLib (toySys "" ["create-agent", "doc.json"] 5)).2.2
      "doc.json" [5] 5 rfl rfl rfl).2 "schema error" rfl⟩

/-- No step of `makeAgentViaJSON` is a call of `client.Agents.Create`. -/
theorem makeAgentViaJSON_trace_no_create (L : Lib T) (s : Sys T) :
    ∀ ev ∈ (makeAgentViaJSON L s).1, ev.isCreate = false := by
  simp only [makeAgentViaJSON]
  repeat' split
  all_goals simp [Event.isCreate]

/-- C6. In `main`, `client.Agents.Create` is called only with the agent that
`makeAgentViaJSON` returned together with a nil error.  When `makeAgentViaJSON`
returns a non-nil error, `main` never calls `Create` and ends the process; once
the configuration and the client are built, it prints the error summary, the
details and the count, then calls `log.Fatal`. -/
theorem main_create_only_after_success (E : Env T) (L : Lib T) (s : Sys T) :
    (∀ cl agent opts, Event.create cl agent opts ∈ (main E L s).1 →
      (makeAgentViaJSON L s).2 = .returned (agent, none) ∧ agent.isSome) ∧
    (∀ a err, (makeAgentViaJSON L s).2 = .returned (a, some err) →
      (∀ ev ∈ (main E L s).1, ev.isCreate = false) ∧
      (main E L s).2 = .exited 1 ∧
      ∀ c client, E.Process applicationName = (c, none) →
        E.NewClient c.PAT c.SnowflakeBaseURL = (client, none) →
        (main E L s).1 =
          [.envProcess applicationName, .newClient c.PAT c.SnowflakeBaseURL] ++
          (makeAgentViaJSON L s).1 ++
          [.println "# Error summary [err]:", .printErr err,
           .println "# Error details [errors.Details(err)]:", .printDetails err,
           .println "# Error count [len(errs)]:", .printCount (E.Errors err).length,
           .logFatal err]) := by
  have hno := makeAgentViaJSON_trace_no_create L s
  refine ⟨?_, ?_⟩
  · intro cl agent opts
    have hiff := returned_agent_iff_no_error L s
    simp only [main]
    repeat' split
    all_goals simp
    all_goals try (intro h; exact absurd (hno _ h) (by simp [Event.isCreate]))
    all_goals
      rintro (h | ⟨rfl, rfl, rfl⟩)
      · exact absurd (hno _ h) (by simp [Event.isCreate])
      · exact ⟨by assumption, (hiff _ none (by assumption)).2 rfl⟩
  · intro a err h
    refine ⟨?_, ?_, ?_⟩
    · simp only [main, h]
      repeat' split
      all_goals simp [or_imp, forall_and, Event.isCreate]
      all_goals exact hno
    · simp only [main, h]
      repeat' split
      all_goals simp
    · intro c client h1 h2
      simp [main, h, h1, h2]

/-- C8. The pipeline is deterministic: two runs of `makeAgentViaJSON`, each
with its own process state and its own library answers, end the same way, with
the same trace, the same error or equal agents, whenever they agree on the
schema source, on the file name `os.Args[1]` and on the bytes read from that
file, and the library calls the pipeline makes answer the same in both runs.
Nothing else the process holds (other arguments, other files, library answers
to calls that are not made) has any influence. -/
theorem makeAgentViaJSON_deterministic (L₁ L₂ : Lib T) (s₁ s₂ : Sys T)
    (hsrc : s₁.cueSource = s₂.cueSource) (harg : s₁.Args[1]? = s₂.Args[1]?)
    (hfile : ∀ name, s₁.Args[1]? = some name → s₁.ReadFile name = s₂.ReadFile name)
    (hlib : SameAnswers L₁ L₂ s₁) :
    makeAgentViaJSON L₁ s₁ = makeAgentViaJSON L₂ s₂ := by
  obtain ⟨hC, hP, hcalls⟩ := hlib
  have e0 : L₂.LookupPath (L₂.CompileString s₁.cueSource) "#CortexAgent"
      = L₁.LookupPath (L₁.CompileString s₁.cueSource) "#CortexAgent" := by
    rw [← hC, ← hP]
  cases h1 : s₁.Args[1]? with
  | none =>
    have h1' : s₂.Args[1]? = none := by rw [← harg, h1]
    simp [makeAgentViaJSON, h1, h1', ← hsrc]
  | some name =>
    have h1' : s₂.Args[1]? = some name := by rw [← harg, h1]
    have hf := hfile name h1
    rcases h2 : s₁.ReadFile name with ⟨data, _ | err⟩
    · have h2' : s₂.ReadFile name = (data, none) := by rw [← hf, h2]
      obtain ⟨hE, hrest⟩ := hcalls name data h1 h2
      rcases h3 : L₁.Extract name data with ⟨expr, _ | err⟩
      · have h3' : L₂.Extract name data = (expr, none) := by rw [← hE, h3]
        obtain ⟨hB, hU, hV, hD⟩ := hrest expr h3
        simp only [schemaValue, unified] at hU hV hD
        cases h4 : L₁.Validate (L₁.Unify (L₁.LookupPath (L₁.CompileString s₁.cueSource)
            "#CortexAgent") (L₁.BuildExpr expr)) with
        | some err =>
          have h4' := h4
          rw [hV] at h4'
          simp [makeAgentViaJSON, h1, h1', h2, h2', h3, h3', ← hsrc, e0, ← hB, ← hU, h4, h4']
        | none =>
          have h4' := h4
          rw [hV] at h4'
          obtain ⟨hDec, hR⟩ := hD h4
          rcases h5 : L₁.Decode (L₁.Unify (L₁.LookupPath (L₁.CompileString s₁.cueSource)
              "#CortexAgent") (L₁.BuildExpr expr)) with ⟨_ | cr, _ | err⟩
          · have h5' := h5
            rw [hDec] at h5'
            simp [makeAgentViaJSON, h1, h1', h2, h2', h3, h3', ← hsrc, e0, ← hB, ← hU, h4, h4',
              h5, h5']
          · have h5' := h5
            rw [hDec] at h5'
            simp [makeAgentViaJSON, h1, h1', h2, h2', h3, h3', ← hsrc, e0, ← hB, ← hU, h4, h4',
              h5, h5']
          · have h5' := h5
            rw [hDec] at h5'
            simp [makeAgentViaJSON, h1, h1', h2, h2', h3, h3', ← hsrc, e0, ← hB, ← hU, h4, h4',
              h5, h5', ← hR cr h5]
          · have h5' := h5
            rw [hDec] at h5'
            simp [makeAgentViaJSON, h1, h1', h2, h2', h3, h3', ← hsrc, e0, ← hB, ← hU, h4, h4',
              h5, h5']
      · have h3' : L₂.Extract name data = (expr, some err) := by rw [← hE, h3]
        simp [makeAgentViaJSON, h1, h1', h2, h2', h3, h3', ← hsrc]
    · have h2' : s₂.ReadFile name = (data, some err) := by rw [← hf, h2]
      simp [makeAgentViaJSON, h1, h1', h2, h2', ← hsrc]

/-- Witness for C8: two runs that differ in the program name, in a further
argument, in the other files and in what the validator answers for a document
that is not read; they agree on the schema, on `os.Args[1]`, on that file and
on every library call made. -/
theorem makeAgentViaJSON_deterministic_witness :
    makeAgentViaJSON toyLib (toySys "schema" ["create-agent", "doc.json"] 5) =
      makeAgentViaJSON (toyLibRejecting 7)
        { cueSource := "schema", Args := ["./create-agent", "doc.json", "extra"],
          ReadFile := fun name => if name = "doc.json" then ([5], none) else ([], some "denied") } :=
  makeAgentViaJSON_deterministic toyLib (toyLibRejecting 7) _ _ rfl rfl
    (fun _ h => by
      cases h
      rfl)
    ⟨rfl, rfl, fun name data h1 h2 => by
      cases h1
      have h2' : (([5], none) : Bytes × Option String) = (data, none) := h2
      cases h2'
      refine ⟨rfl, fun expr h3 => ?_⟩
      have h3' : ((5, none) : Nat × Option String) = (expr, none) := h3
      cases h3'
      exact ⟨rfl, rfl, rfl, fun _ => ⟨rfl, fun cr h5 => rfl⟩⟩⟩

/-- The hypothesis of C8 on the library answers is needed: with the same
schema, file name and bytes, a validator that answers differently in the
second run changes the outcome. -/
theorem validate_answer_decides_outcome :
    makeAgentViaJSON toyLib (toySys "schema" ["create-agent", "doc.json"] 5) ≠
      makeAgentViaJSON (toyLibRejecting 5) (toySys "schema" ["create-agent", "doc.json"] 5) := by
  intro h
  have h1 : (makeAgentViaJSON (toyLibRejecting 5)
      (toySys "schema" ["create-agent", "doc.json"] 5)).2 = .returned (none, some "rejected") := rfl
  have h2 := returned_agent_iff_no_error toyLib
    (toySys "schema" ["create-agent", "doc.json"] 5) none (some "rejected") (by rw [h, h1])
  have h3 : ∃ agent, (makeAgentViaJSON toyLib
      (toySys "schema" ["create-agent", "doc.json"] 5)).2 = .returned (some agent, none) :=
    ⟨_, rfl⟩
  obtain ⟨agent, h4⟩ := h3
  rw [h, h1] at h4
  cases h4

/-- Witness for C6: document 0 fails validation, so `main` ends the process
without a `Create` call; document 5 is created with the agent returned. -/
theorem main_create_only_after_success_witness :
    (main toyEnv toyLib (toySys "schema" ["create-agent", "doc.json"] 0)).2 = .exited 1 ∧
    (∀ ev ∈ (main toyEnv toyLib (toySys "schema" ["create-agent", "doc.json"] 0)).1,
      ev.isCreate = false) :=
  ⟨((main_create_only_after_success toyEnv toyLib
      (toySys "schema" ["create-agent", "doc.json"] 0)).2 none "field missing" rfl).2.1,
   ((main_create_only_after_success toyEnv toyLib
      (toySys "schema" ["create-agent", "doc.json"] 0)).2 none "field missing" rfl).1⟩

/-- C10. With at least two elements in `os.Args` the access `os.Args[1]` is in
bounds and its value is the name of the file that is read, right after the
schema is built; with fewer than two elements `makeAgentViaJSON` panics there:
it returns neither an agent nor an error and runs no stage. -/
theorem args_index_precondition (L : Lib T) (s : Sys T) :
    (∀ h : 2 ≤ s.Args.length,
      s.Args[1]? = some (s.Args.get ⟨1, h⟩) ∧
      (makeAgentViaJSON L s).1.take 3 =
        [.compileString s.cueSource, .lookupPath "#CortexAgent",
         .readFile (s.Args.get ⟨1, h⟩)]) ∧
    (s.Args.length < 2 →
      makeAgentViaJSON L s =
        ([.compileString s.cueSource, .lookupPath "#CortexAgent"], .panicked) ∧
      stagesRun L s = []) := by
  refine ⟨?_, ?_⟩
  · intro h
    have h1 : s.Args[1]? = some (s.Args.get ⟨1, h⟩) := by
      rw [List.getElem?_eq_getElem h]
      rfl
    refine ⟨h1, ?_⟩
    simp only [makeAgentViaJSON, h1]
    repeat' split
    all_goals simp
  · intro h
    have h1 : s.Args[1]? = none := List.getElem?_eq_none (by omega)
    simp [stagesRun, makeAgentViaJSON, h1, Event.stage]

/-- Witness for C10: with the arguments `create-agent doc.json` the file read
is `doc.json`; with the program name alone the call panics. -/
theorem args_index_precondition_witness :
    (makeAgentViaJSON toyLib (toySys "schema" ["create-agent", "doc.json"] 5)).1.take 3 =
      [.compileString "schema", .lookupPath "#CortexAgent", .readFile "doc.json"] ∧
    makeAgentViaJSON toyLib (toySys "schema" ["create-agent"] 5) =
      ([.compileString "schema", .lookupPath "#CortexAgent"], .panicked) :=
  ⟨((args_index_precondition toyLib (toySys "schema" ["create-agent", "doc.json"] 5)).1
      (by decide)).2,
   ((args_index_precondition toyLib (toySys "schema" ["create-agent"] 5)).2 (by decide)).1⟩

/-- C9. The stages run in the fixed order extract, build, unify, validate,
decode, resolve, each fed by the one before, and the pipeline stops at the
first failure with the error unchanged.  A failed `json.Extract` returns exactly
its error after the extract stage alone.  A failed `uv.Validate` returns exactly
its error value with neither decode nor resolve run, so that `main` counts
`errors.Errors` of that very value.  A passed validation is followed by
`uv.Decode` of the validated value, and a successful decode by
`ParseToolResources` of the request's `ToolResources` and `Tools`, whose
outcome decides the return.  `ParseToolResources` is never applied to anything
else. -/
theorem pipeline_order_first_failure (E : Env T) (L : Lib T) (s : Sys T) :
    stagesRun L s <+: [.extract, .build, .unify, .validate, .decode, .resolve] ∧
    (∀ name data x e, s.Args[1]? = some name → s.ReadFile name = (data, none) →
      L.Extract name data = (x, some e) →
      (makeAgentViaJSON L s).2 = .returned (none, some e) ∧ stagesRun L s = [.extract]) ∧
    (∀ name data expr e, s.Args[1]? = some name → s.ReadFile name = (data, none) →
      L.Extract name data = (expr, none) →
      L.Validate (unified L s expr) = some e →
      (makeAgentViaJSON L s).2 = .returned (none, some e) ∧
      stagesRun L s = [.extract, .build, .unify, .validate] ∧
      ∀ c client, E.Process applicationName = (c, none) →
        E.NewClient c.PAT c.SnowflakeBaseURL = (client, none) →
        Event.printCount (E.Errors e).length ∈ (main E L s).1) ∧
    (∀ res tools, Event.parseToolResources res tools ∈ (makeAgentViaJSON L s).1 →
      ∃ name data expr cr, s.Args[1]? = some name ∧ s.ReadFile name = (data, none) ∧
        L.Extract name data = (expr, none) ∧
        L.Validate (unified L s expr) = none ∧
        L.Decode (unified L s expr) = (some cr, none) ∧
        res = cr.ToolResources ∧ tools = cr.Tools) ∧
    (∀ name data, s.Args[1]? = some name → s.ReadFile name = (data, none) →
      (∀ x e, L.Extract name data = (x, some e) →
        stageEvents L s = [.extract name data]) ∧
      (∀ expr, L.Extract name data = (expr, none) →
        (∀ e, L.Validate (unified L s expr) = some e →
          stageEvents L s =
            [.extract name data, .buildExpr expr,
             .unify (schemaValue L s) (L.BuildExpr expr), .validate (unified L s expr)]) ∧
        (L.Validate (unified L s expr) = none →
          (∀ x e, L.Decode (unified L s expr) = (x, some e) →
            stageEvents L s =
              [.extract name data, .buildExpr expr,
               .unify (schemaValue L s) (L.BuildExpr expr), .validate (unified L s expr),
               .decode (unified L s expr)] ∧
            (makeAgentViaJSON L s).2 = .exited 1) ∧
          (L.Decode (unified L s expr) = (none, none) →
            stageEvents L s =
              [.extract name data, .buildExpr expr,
               .unify (schemaValue L s) (L.BuildExpr expr), .validate (unified L s expr),
               .decode (unified L s expr)] ∧
            (makeAgentViaJSON L s).2 = .panicked) ∧
          (∀ cr, L.Decode (unified L s expr) = (some cr, none) →
            stageEvents L s =
              [.extract name data, .buildExpr expr,
               .unify (schemaValue L s) (L.BuildExpr expr), .validate (unified L s expr),
               .decode (unified L s expr),
               .parseToolResources cr.ToolResources cr.Tools] ∧
            stagesRun L s = [.extract, .build, .unify, .validate, .decode, .resolve] ∧
            (∀ x e, L.ParseToolResources cr.ToolResources cr.Tools = (x, some e) →
              (makeAgentViaJSON L s).2 = .returned (none, some e)) ∧
            (∀ der, L.ParseToolResources cr.ToolResources cr.Tools = (der, none) →
              ∃ agent, (makeAgentViaJSON L s).2 = .returned (some agent, none) ∧
                agent.ToolResources = der ∧ agent.Tools = cr.Tools))))) := by
  refine ⟨?_, ?_, ?_, ?_, ?_⟩
  · simp only [stagesRun, makeAgentViaJSON]
    repeat' split
    all_goals simp [Event.stage]
  · intro name data x e h1 h2 h3
    simp [stagesRun, makeAgentViaJSON, h1, h2, h3, Event.stage]
  · intro name data expr e h1 h2 h3 h4
    refine ⟨?_, ?_, ?_⟩
    · simp [makeAgentViaJSON, h1, h2, h3, h4]
    · simp [stagesRun, makeAgentViaJSON, h1, h2, h3, h4, Event.stage]
    · intro c client h5 h6
      have h7 : (makeAgentViaJSON L s).2 = .returned (none, some e) := by
        simp [makeAgentViaJSON, h1, h2, h3, h4]
      simp [main, h5, h6, h7]
  · intro res tools
    simp only [makeAgentViaJSON]
    repeat' split
    all_goals simp
    all_goals
      rintro rfl rfl
      exact ⟨_, by assumption, _, by assumption, _, by assumption, by assumption, _,
        by assumption, rfl, rfl⟩
  · intro name data h1 h2
    refine ⟨?_, ?_⟩
    · intro x e h3
      simp [stageEvents, makeAgentViaJSON, h1, h2, h3, Event.stage]
    · intro expr h3
      refine ⟨?_, ?_⟩
      · intro e h4
        simp [stageEvents, makeAgentViaJSON, h1, h2, h3, h4, Event.stage]
      · intro h4
        refine ⟨?_, ?_, ?_⟩
        · intro x e h5
          simp [stageEvents, makeAgentViaJSON, h1, h2, h3, h4, h5, Event.stage]
        · intro h5
          simp [stageEvents, makeAgentViaJSON, h1, h2, h3, h4, h5, Event.stage]
        · intro cr h5
          refine ⟨?_, ?_, ?_, ?_⟩
          · simp only [stageEvents, makeAgentViaJSON, h1, h2, h3, h4, h5]
            split <;> simp [Event.stage]
          · simp only [stagesRun, makeAgentViaJSON, h1, h2, h3, h4, h5]
            split <;> simp [Event.stage]
          · intro x e h6
            simp [makeAgentViaJSON, h1, h2, h3, h4, h5, h6]
          · intro der h6
            simp [makeAgentViaJSON, h1, h2, h3, h4, h5, h6]

/-- Witness for C9: an empty file stops the pipeline after the extract stage;
document 0 stops it after validation and `main` prints the count 1; document 1
passes validation and is decoded; document 5 runs all six stages. -/
theorem pipeline_order_first_failure_witness :
    stagesRun toyLib (toySys "schema" ["create-agent", "empty.json"] 5) = [.extract] ∧
    stagesRun toyLib (toySys "schema" ["create-agent", "doc.json"] 0)
      = [.extract, .build, .unify, .validate] ∧
    Event.printCount 1 ∈ (main toyEnv toyLib (toySys "schema" ["create-agent", "doc.json"] 0)).1 ∧
    stageEvents toyLib (toySys "schema" ["create-agent", "doc.json"] 1)
      = [.extract "doc.json" [1], .buildExpr 1, .unify (some 0) (some 1), .validate (some 1),
         .decode (some 1)] ∧
    stagesRun toyLib (toySys "schema" ["create-agent", "doc.json"] 5)
      = [.extract, .build, .unify, .validate, .decode, .resolve] :=
  ⟨((pipeline_order_first_failure toyEnv toyLib
      (toySys "schema" ["create-agent", "empty.json"] 5)).2.1
      "empty.json" [] 0 "unexpected end of input" rfl rfl rfl).2,
   ((pipeline_order_first_failure toyEnv toyLib
      (toySys "schema" ["create-agent", "doc.json"] 0)).2.2.1
      "doc.json" [0] 0 "field missing" rfl rfl rfl rfl).2.1,
   ((pipeline_order_first_failure toyEnv toyLib
      (toySys "schema" ["create-agent", "doc.json"] 0)).2.2.1
      "doc.json" [0] 0 "field missing" rfl rfl rfl rfl).2.2 _ _ rfl rfl,
   (((((pipeline_order_first_failure toyEnv toyLib
      (toySys "schema" ["create-agent", "doc.json"] 1)).2.2.2.2
      "doc.json" [1] rfl rfl).2 1 rfl).2 rfl).1 none "cannot decode" rfl).1,
   (((((pipeline_order_first_failure toyEnv toyLib
      (toySys "schema" ["create-agent", "doc.json"] 5)).2.2.2.2
      "doc.json" [5] rfl rfl).2 5 rfl).2 rfl).2.2 (toyRequest 5) rfl).2.1⟩

end Pipeline

end CreateAgent
